import Mathlib

/-!
Verification of the MorningBot AI-routing/fallback core, the local task
store, the email ranker and the brief aggregator, as a shallow embedding
of the Python sources in Lean.

Python strings are modelled as lists of characters (`Str`); Python dicts
holding heterogeneous JSON-like data are modelled by the inductive
type `PyVal`; the JSON task file is modelled as an explicit list of
task records threaded through the stateful operations; the third-party
RRULE engine (dateutil) is abstracted by boolean-valued parameters.
-/

namespace MorningBot

/-- Python strings, modelled as lists of characters. -/
abbrev Str := List Char

/-- Model of Python `str.lower` on the characters this code base
manipulates: ASCII uppercase letters plus the accented Spanish uppercase
letters that can appear in instructions. -/
def toLowerCh (c : Char) : Char :=
  if 'A' ≤ c ∧ c ≤ 'Z' then Char.ofNat (c.toNat + 32)
  else if c = 'Ñ' then 'ñ'
  else if c = 'Á' then 'á'
  else if c = 'É' then 'é'
  else if c = 'Í' then 'í'
  else if c = 'Ó' then 'ó'
  else if c = 'Ú' then 'ú'
  else c

/-- `str.lower` lifted to whole strings. -/
def pyLower (s : Str) : Str := s.map toLowerCh

/-- `needle` is an initial segment of `hay` (auxiliary for substring search). -/
def startsWithL : Str → Str → Bool
  | [], _ => true
  | _ :: _, [] => false
  | c :: cs, d :: ds => c == d && startsWithL cs ds

/-- Model of Python `needle in hay` (substring containment). -/
def pyContains (needle : Str) (hay : Str) : Bool :=
  match hay with
  | [] => startsWithL needle []
  | _ :: rest => startsWithL needle hay || pyContains needle rest

/-- JSON-like Python values: strings, numbers, lists and dicts. -/
inductive PyVal where
  | s (v : Str)
  | n (v : Nat)
  | list (vs : List PyVal)
  | dict (kvs : List (Str × PyVal))

/-- Dict lookup on an association list (first binding wins, as in a dict
literal with distinct keys). -/
def assocGet (k : Str) : List (Str × PyVal) → Option PyVal
  | [] => none
  | (k', v) :: rest => if k' = k then some v else assocGet k rest

/-- `d[k]` on a `PyVal`, `none` when the value is not a dict or lacks the key. -/
def PyVal.getKey (v : PyVal) (k : Str) : Option PyVal :=
  match v with
  | .dict kvs => assocGet k kvs
  | _ => none

/-! ### src/services/ai_fallbacks.py -/

/-- Keyword lexicon of the first routing branch (`add`). -/
def addKeywords : List Str := ["add".data, "añadir".data, "crear".data, "necesito".data]

/-- Keyword lexicon of the `recur` branch. -/
def recurKeywords : List Str := ["recur".data, "repetir".data, "cada".data, "diario".data]

/-- Keyword lexicon of the `listar` branch. -/
def listKeywords : List Str := ["list".data, "mostrar".data, "tareas".data]

/-- Keyword lexicon of the `completar` branch. -/
def doneKeywords : List Str := ["done".data, "hecho".data, "completar".data]

/-- Keyword lexicon of the `brief` branch. -/
def briefKeywords : List Str := ["brief".data, "resumen".data, "noticias".data]

/-- Keyword lexicon of the `ajustar_prefs` branch. -/
def prefsKeywords : List Str := ["bloquear".data, "preferencias".data, "ajustar".data]

/-- `any(word in hay for word in kws)`. -/
def anyKw (kws : List Str) (hay : Str) : Bool := kws.any (fun w => pyContains w hay)

/-- A hexadecimal character of the class `[a-f0-9]`. -/
def isHexDigitCh (c : Char) : Bool := ('a' ≤ c && c ≤ 'f') || ('0' ≤ c && c ≤ '9')

/-- Does a match of the regex `t_[a-f0-9]{8}` start at the head of `s`? -/
def taskIdHere : Str → Bool
  | c :: d :: rest =>
      c == 't' && d == '_' && decide (8 ≤ rest.length) && (rest.take 8).all isHexDigitCh
  | _ => false

/-- Model of `re.search(r't_[a-f0-9]{8}', s)`: the leftmost match, when any. -/
def searchTaskId : Str → Option Str
  | [] => none
  | c :: rest =>
      if taskIdHere (c :: rest) then some ((c :: rest).take 10) else searchTaskId rest

/-- `fallback_route_instruction` of src/services/ai_fallbacks.py: keyword
routing over the lowercased instruction, first matching branch wins; the
task-id regex is searched on the original (non-lowercased) instruction. -/
def fallback_route_instruction (instruction : Str) : PyVal :=
  let low := pyLower instruction
  if anyKw addKeywords low then
    .dict [("intent".data, .s "add".data),
           ("args".data, .dict [("title".data, .s instruction),
                                ("priority".data, .s "medium".data)])]
  else if anyKw recurKeywords low then
    .dict [("intent".data, .s "recur".data),
           ("args".data, .dict [("title".data, .s instruction),
                                ("rrule".data, .s "FREQ=DAILY".data),
                                ("priority".data, .s "medium".data)])]
  else if anyKw listKeywords low then
    .dict [("intent".data, .s "listar".data), ("args".data, .dict [])]
  else if anyKw doneKeywords low then
    match searchTaskId instruction with
    | some m =>
        .dict [("intent".data, .s "completar".data),
               ("args".data, .dict [("id".data, .s m)])]
    | none =>
        .dict [("intent".data, .s "clarify".data),
               ("message".data, .s "No pude identificar el ID de la tarea".data)]
  else if anyKw briefKeywords low then
    .dict [("intent".data, .s "brief".data), ("args".data, .dict [])]
  else if anyKw prefsKeywords low then
    .dict [("intent".data, .s "ajustar_prefs".data),
           ("args".data, .dict [("preference_instruction".data, .s instruction)])]
  else
    .dict [("intent".data, .s "clarify".data),
           ("message".data, .s "No pude entender la instrucción (modo fallback)".data)]

/-- `get_safe_default` of src/services/ai_fallbacks.py: hard-coded safe
default keyed by substring tests on the lowercased function name. -/
def get_safe_default (function_name : Str) : PyVal :=
  let low := pyLower function_name
  if pyContains "summarize".data low then
    .s "Resumen no disponible (error en IA y fallback)".data
  else if pyContains "rank".data low then
    .dict [("emails".data, .list []), ("found".data, .n 0),
           ("considered".data, .n 0), ("selected".data, .n 0),
           ("rationale".data, .s "Error en ranking".data)]
  else if pyContains "route".data low then
    .dict [("intent".data, .s "clarify".data),
           ("message".data, .s "Error en procesamiento de IA".data)]
  else
    .s "Error en función de IA".data

/-- `with_ai_fallback` of src/services/ai_fallbacks.py.  Fallible Python
coroutines are modelled as `Except`-valued functions; the wrapper tries the
primary, then the fallback with the same argument, then the safe default
keyed by the primary's name.  Its result type carries no error case, which
is the code's guarantee that no exception propagates to the caller. -/
def with_ai_fallback {α : Type} (fname : Str)
    (ai_function fallback_function : α → Except Str PyVal) (x : α) : PyVal :=
  match ai_function x with
  | .ok v => v
  | .error _ =>
    match fallback_function x with
    | .ok v => v
    | .error _ => get_safe_default fname

/-! ### src/services/tasks_local.py -/

/-- A timestamp, abstracted to the two components the task code inspects:
the calendar day (Python `.date()`, here an abstract day index) and the
hour of day (Python `.hour`). -/
structure Timestamp where
  day : Nat
  hour : Nat
deriving DecidableEq, Repr

/-- A record of the persisted task file `tasks_db.json`. -/
structure Task where
  id : Str
  title : Str
  notes : Str
  priority : Str
  due : Option Timestamp
  completed : Bool
  createdAt : Timestamp
  updatedAt : Timestamp
  source : Str
  rrule : Option Str
deriving DecidableEq, Repr

/-- The decimal digit character of `n % 10`. -/
def digitCh (n : Nat) : Char := Char.ofNat (48 + n % 10)

/-- Decimal digits of `n`, most significant first (fuel-based recursion on
`n / 10`; fuel `n` is always enough). -/
def natDigitsAux : Nat → Nat → Str
  | 0, n => [digitCh n]
  | fuel + 1, n => if n < 10 then [digitCh n] else natDigitsAux fuel (n / 10) ++ [digitCh n]

/-- Decimal representation of `n` as characters. -/
def natDigits (n : Nat) : Str := natDigitsAux n n

/-- Model of the Python format `f"T\x7bcounter:03d\x7d"` body: the decimal
digits of `n`, zero-padded on the left to a minimum width of three. -/
def pad3 (n : Nat) : Str :=
  if n < 10 then ['0', '0', digitCh n]
  else if n < 100 then ['0', digitCh (n / 10), digitCh n]
  else if n < 1000 then [digitCh (n / 100), digitCh (n / 10), digitCh n]
  else natDigits n

/-- The candidate task id for a counter value: `T` ++ zero-padded counter. -/
def taskIdFmt (counter : Nat) : Str := 'T' :: pad3 counter

/-- The `while` loop of `generate_task_id`, made structurally recursive by
fuel.  Fuel `len existing + 1` is always enough: the formatted candidates
are pairwise distinct, so among the first `len existing + 1` counters one
is unused and the loop exits exactly as the unbounded Python loop does. -/
def genIdLoop (existing : List Str) : Nat → Nat → Str
  | 0, counter => taskIdFmt counter
  | fuel + 1, counter =>
      if taskIdFmt counter ∈ existing then genIdLoop existing fuel (counter + 1)
      else taskIdFmt counter

/-- `generate_task_id` of src/services/tasks_local.py: the first unused id
among `T001, T002, ...`. -/
def generate_task_id (tasks : List Task) : Str :=
  genIdLoop (tasks.map Task.id) (tasks.length + 1) 1

/-- The record built by `add_task` / `add_recurrent_task`. -/
def mkLocalTask (id title notes priority : Str) (due : Option Timestamp)
    (now : Timestamp) (rrule : Option Str) : Task :=
  { id := id, title := title, notes := notes, priority := priority, due := due,
    completed := false, createdAt := now, updatedAt := now,
    source := "local".data, rrule := rrule }

/-- `add_task` of src/services/tasks_local.py (the always-successful write
path; the JSON file is threaded explicitly as the task list). -/
def add_task (title notes priority : Str) (due : Option Timestamp)
    (now : Timestamp) (tasks : List Task) : Str × List Task :=
  let id := generate_task_id tasks
  (id, tasks ++ [mkLocalTask id title notes priority due now none])

/-- `add_recurrent_task` of src/services/tasks_local.py.  The third-party
`rrulestr` grammar check is abstracted as the boolean parameter `rruleOk`
(`true` = parses, `false` = raises).  On a parse failure the function
raises `ValueError("Invalid RRULE ...")` before touching the store. -/
def add_recurrent_task (rruleOk : Str → Bool) (title rrule notes priority : Str)
    (start_due : Option Timestamp) (now : Timestamp) (tasks : List Task) :
    Except Str Str × List Task :=
  if rruleOk rrule then
    let id := generate_task_id tasks
    (.ok id, tasks ++ [mkLocalTask id title notes priority start_due now (some rrule)])
  else
    (.error "Invalid RRULE".data, tasks)

/-- `expand_for_today` of src/services/tasks_local.py.  The dateutil
occurrence test (`rule.between(...) or (start_date == today and rule.count
is None)`, with a parse failure skipping the template) is abstracted as
the boolean parameter `occursToday`.  The function reads the store and
never writes it: each produced instance is ephemeral, its id the template
id suffixed with `_today` and its due time today's midnight. -/
def expand_for_today (occursToday : Task → Nat → Bool) (today : Nat)
    (tasks : List Task) : List Task :=
  tasks.filterMap (fun t =>
    if t.rrule.isSome && !t.completed && occursToday t today then
      some { t with id := t.id ++ "_today".data, due := some ⟨today, 0⟩ }
    else none)

/-- The `priority_order` dict lookup with default 1 (`medium`). -/
def priorityRank (p : Str) : Nat :=
  if p = "high".data then 0
  else if p = "medium".data then 1
  else if p = "low".data then 2
  else 1

/-- The `sort_key` closure of `list_today_sorted`: priority rank, then the
hour of the due timestamp, defaulting to 0 when there is no due date. -/
def sortKey (t : Task) : Nat × Nat :=
  (priorityRank t.priority, match t.due with | some d => d.hour | none => 0)

/-- Python's ascending tuple comparison on sort keys. -/
def keyLe (a b : Task) : Bool :=
  decide ((sortKey a).1 < (sortKey b).1 ∨
          ((sortKey a).1 = (sortKey b).1 ∧ (sortKey a).2 ≤ (sortKey b).2))

/-- The selection loop of `list_today_sorted`: non-recurring, uncompleted
tasks whose due day is today or earlier, or — when there is no due date —
that were created today. -/
def selectRegularToday (today : Nat) (tasks : List Task) : List Task :=
  tasks.filter (fun t =>
    !t.completed && t.rrule.isNone &&
      (match t.due with
       | some d => decide (d.day ≤ today)
       | none => t.createdAt.day == today))

/-- `list_today_sorted` of src/services/tasks_local.py: regular tasks for
today plus expanded recurring instances, stably sorted by `sort_key`
(Python `sorted` is a stable merge sort, as is `List.mergeSort`). -/
def list_today_sorted (occursToday : Task → Nat → Bool) (today : Nat)
    (tasks : List Task) : List Task :=
  (selectRegularToday today tasks ++ expand_for_today occursToday today tasks).mergeSort keyLe

/-- `list_today_sorted` with the persisted store threaded explicitly: the
Python function calls `load_tasks` but never `save_tasks`, so the store
component of the result is the input store. -/
def list_today_stateful (occursToday : Task → Nat → Bool) (today : Nat)
    (tasks : List Task) : List Task × List Task :=
  (list_today_sorted occursToday today tasks, tasks)

/-- The search loop of `complete_task`: mark the first task with the given
id completed and stamp `updatedAt`; `none` when no task matches. -/
def completeAux (task_id : Str) (now : Timestamp) : List Task → Option (List Task)
  | [] => none
  | t :: ts =>
      if t.id = task_id then some ({ t with completed := true, updatedAt := now } :: ts)
      else (completeAux task_id now ts).map (t :: ·)

/-- `complete_task` of src/services/tasks_local.py (with the always-
successful `save_tasks` path): `true` and the updated store when the id is
found, `false` and the unchanged store otherwise. -/
def complete_task (task_id : Str) (now : Timestamp) (tasks : List Task) :
    Bool × List Task :=
  match completeAux task_id now tasks with
  | some tasks' => (true, tasks')
  | none => (false, tasks)

/-! ### src/services/email_ranker.py -/

/-- An email record, restricted to the fields the prefilter and the
heuristic fallback inspect (`email.get('sender', '')`,
`email.get('subject', '')`). -/
structure Email where
  sender : Str
  subject : Str
deriving DecidableEq, Repr

/-- The preference fields `prefilter_by_prefs` reads. -/
structure Prefs where
  blocked_keywords : List Str
  blocked_domains : List Str
  blocked_senders : List Str
deriving Repr

/-- The three blocking tests of the prefilter loop: a blocked keyword in
the lowercased subject or sender, a blocked domain in the lowercased
sender, or a blocked sender in the lowercased sender (all case-insensitive
substring tests). -/
def emailBlocked (prefs : Prefs) (e : Email) : Bool :=
  let sender := pyLower e.sender
  let subject := pyLower e.subject
  prefs.blocked_keywords.any
      (fun k => pyContains (pyLower k) subject || pyContains (pyLower k) sender)
    || prefs.blocked_domains.any (fun d => pyContains (pyLower d) sender)
    || prefs.blocked_senders.any (fun b => pyContains (pyLower b) sender)

/-- `prefilter_by_prefs` of src/services/email_ranker.py: keep the emails
that are not blocked, in order, and return the original count (the loaded
preferences are passed explicitly). -/
def prefilter_by_prefs (prefs : Prefs) (emails : List Email) : List Email × Nat :=
  (emails.filter (fun e => !emailBlocked prefs e), emails.length)

/-- The output contract of the rankers. -/
structure RankResult where
  emails : List Email
  found : Nat
  considered : Nat
  selected : Nat
  rationale : Str
deriving DecidableEq, Repr

/-- The parsed JSON the AI returns on the ranking path: a list of 1-based
positions plus a rationale (the `result.get("rationale", ...)` default is
folded into the field). -/
structure AIRankResponse where
  selected : List Int
  rationale : Str

/-- The resolution loop of `rank_emails_with_gemini`: keep the emails at
the in-range 1-based positions, silently dropping out-of-range indices. -/
def resolvePositions (idxs : List Int) (emails : List Email) : List Email :=
  idxs.filterMap (fun i =>
    if 1 ≤ i ∧ i ≤ (emails.length : Int) then emails.get? (i - 1).toNat else none)

/-- `rank_emails_with_gemini` of src/services/email_ranker.py.  The AI
call plus JSON parse is abstracted as the `Except`-valued `ai` argument;
any failure there is re-raised for the decorator.  (The `accounts` key the
real dict also carries is not part of the claimed contract and is not
modelled.) -/
def rank_emails_with_gemini (ai : Except Str AIRankResponse)
    (emails : List Email) (top_k : Nat) : Except Str RankResult :=
  if emails.isEmpty then
    .ok { emails := [], found := 0, considered := 0, selected := 0,
          rationale := "No emails to process".data }
  else
    match ai with
    | .error e => .error e
    | .ok resp =>
        let selected_emails := resolvePositions resp.selected emails
        .ok { emails := selected_emails.take top_k,
              found := emails.length,
              considered := min emails.length 50,
              selected := selected_emails.length,
              rationale := resp.rationale }

/-- Urgency keywords of the heuristic scorer. -/
def urgentWords : List Str := ["urgent".data, "importante".data, "meeting".data, "reunión".data]

/-- Automated-sender keywords of the heuristic scorer. -/
def autoWords : List Str := ["noreply".data, "no-reply".data, "automated".data]

/-- The score of one email in `fallback_rank_emails`: +5 for an urgency
keyword in the subject, -5 for an automated-sender keyword in the sender,
+2 for a subject shorter than 50 characters. -/
def emailScore (e : Email) : Int :=
  (if anyKw urgentWords (pyLower e.subject) then 5 else 0)
  + (if anyKw autoWords (pyLower e.sender) then -5 else 0)
  + (if (pyLower e.subject).length < 50 then 2 else 0)

/-- `fallback_rank_emails` of src/services/ai_fallbacks.py: score, stable
sort by score descending (Python `list.sort(key=..., reverse=True)`), take
the first `top_k`. -/
def fallback_rank_emails (emails : List Email) (top_k : Nat) : RankResult :=
  if emails.isEmpty then
    { emails := [], found := 0, considered := 0, selected := 0,
      rationale := "No hay correos".data }
  else
    let scored := emails.map (fun e => (e, emailScore e))
    let sorted := scored.mergeSort (fun a b => decide (b.2 ≤ a.2))
    let selected_emails := (sorted.take top_k).map Prod.fst
    { emails := selected_emails,
      found := emails.length,
      considered := emails.length,
      selected := selected_emails.length,
      rationale := "Selección usando heurística básica (IA no disponible)".data }

/-! ### src/bot.py, generate_brief_background -/

/-- The news branch result (`fetch_and_summarize_news`). -/
structure NewsData where
  summary : Str
  count : Nat
deriving Repr

/-- The initialized default of the news branch (src/bot.py line 398). -/
def newsDefault : NewsData := { summary := "📰 Noticias no disponibles".data, count := 0 }

/-- The initialized default of the email branch (src/bot.py line 399). -/
def emailsDefault : RankResult :=
  { emails := [], found := 0, considered := 0, selected := 0,
    rationale := "📧 Emails no disponibles".data }

/-- One guarded branch of the aggregator: the branch value when it
completed, the initialized default when it raised or timed out. -/
def branchOr {α : Type} (deflt : α) : Except Str α → α
  | .ok v => v
  | .error _ => deflt

/-- The merged brief handed to `format_brief`. -/
structure BriefReport where
  news : NewsData
  emails : RankResult
  calendar : List PyVal
  tasks : List PyVal

/-- Core of `generate_brief_background` (src/bot.py): each of the four
branches runs under its own try/except with an `asyncio.wait_for`
deadline; a branch that raises or times out keeps its initialized default,
and the four values are merged into one report.  A branch outcome is
modelled as `Except`, `.error` covering both an exception and a deadline
expiry (`asyncio.TimeoutError` is an exception caught by the same
handler). -/
def generate_brief (news : Except Str NewsData) (emails : Except Str RankResult)
    (calendar : Except Str (List PyVal)) (tasks : Except Str (List PyVal)) :
    BriefReport :=
  { news := branchOr newsDefault news,
    emails := branchOr emailsDefault emails,
    calendar := branchOr [] calendar,
    tasks := branchOr [] tasks }

/-- Decimal digit test (the regex class `[0-9]`), stated numerically over
the code point. -/
def isDecDigit (c : Char) : Bool := decide (48 ≤ c.toNat ∧ c.toNat ≤ 57)

/-- A store holding 999 tasks with the ids `T001 .. T999`, the state after
999 successful adds. -/
def store999 : List Task := (List.range 999).map
  (fun i => mkLocalTask (taskIdFmt (i + 1)) "pendiente".data [] "medium".data none ⟨0, 0⟩ none)

/-- A persisted daily recurring template. -/
def tmplDiaria : Task :=
  mkLocalTask "T001".data "Regar plantas".data [] "medium".data none ⟨0, 0⟩
    (some "FREQ=DAILY".data)

/-- The single-task store of the end-to-end scenario. -/
def renta : Task :=
  mkLocalTask "T001".data "Pagar renta".data [] "high".data (some ⟨0, 9⟩) ⟨0, 0⟩ none

/-- Example task A of the C3 scenario: high priority, due hour 10. -/
def taskA : Task :=
  mkLocalTask "A".data "A".data [] "high".data (some ⟨0, 10⟩) ⟨0, 0⟩ none

/-- Example task B of the C3 scenario: high priority, due hour 8. -/
def taskB : Task :=
  mkLocalTask "B".data "B".data [] "high".data (some ⟨0, 8⟩) ⟨0, 0⟩ none

/-- Example task C of the C3 scenario: medium priority, due hour 9. -/
def taskC : Task :=
  mkLocalTask "C".data "C".data [] "medium".data (some ⟨0, 9⟩) ⟨0, 0⟩ none

/-! ### Helper lemmas -/

/-- Every instance produced by recurrence expansion comes from an
uncompleted template of the store, carries its fields, and has the
template id suffixed with `_today`. -/
theorem mem_expand_shape {m : Task → Nat → Bool} {today : Nat}
    {tasks : List Task} {t : Task} (h : t ∈ expand_for_today m today tasks) :
    ∃ u ∈ tasks, u.rrule.isSome = true ∧ u.completed = false ∧
      t.id = u.id ++ "_today".data ∧ t.completed = u.completed := by
  rcases List.mem_filterMap.mp h with ⟨u, hu, heq⟩
  by_cases hc : u.rrule.isSome && !u.completed && m u today
  · rw [if_pos hc] at heq
    rcases Bool.and_eq_true_iff.mp hc with ⟨hc1, _⟩
    rcases Bool.and_eq_true_iff.mp hc1 with ⟨hr, hnc⟩
    cases heq
    exact ⟨u, hu, hr, by simpa using hnc, rfl, rfl⟩
  · rw [if_neg hc] at heq
    cases heq

/-- Every task returned by `list_today_sorted` is uncompleted. -/
theorem mem_list_today_not_completed {m : Task → Nat → Bool} {today : Nat}
    {tasks : List Task} {t : Task} (h : t ∈ list_today_sorted m today tasks) :
    t.completed = false := by
  rw [list_today_sorted, List.mem_mergeSort, List.mem_append] at h
  rcases h with h | h
  · have := (List.mem_filter.mp h).2
    rcases Bool.and_eq_true_iff.mp this with ⟨h1, _⟩
    rcases Bool.and_eq_true_iff.mp h1 with ⟨hnc, _⟩
    simpa using hnc
  · rcases mem_expand_shape h with ⟨u, _, _, huc, _, hct⟩
    rw [hct, huc]

/-- `completeAux` finds no task exactly when no task has the id. -/
theorem completeAux_eq_none_iff (task_id : Str) (now : Timestamp) :
    ∀ ts : List Task, completeAux task_id now ts = none ↔ ∀ t ∈ ts, t.id ≠ task_id
  | [] => by simp [completeAux]
  | t :: ts => by
    by_cases h : t.id = task_id
    · simp [completeAux, h]
    · simp [completeAux, h, completeAux_eq_none_iff task_id now ts]

/-- `completeAux` preserves the sequence of task ids. -/
theorem completeAux_map_id (task_id : Str) (now : Timestamp) :
    ∀ ts ts' : List Task, completeAux task_id now ts = some ts' →
      ts'.map Task.id = ts.map Task.id
  | [], _, h => by cases h
  | t :: ts, ts', h => by
    by_cases hid : t.id = task_id
    · rw [completeAux, if_pos hid] at h
      cases h
      simp
    · rw [completeAux, if_neg hid] at h
      rcases Option.map_eq_some'.mp h with ⟨u, hu, hcons⟩
      subst hcons
      simp [completeAux_map_id task_id now ts u hu]

/-- When `completeAux` succeeds, the updated store holds a completed task
with the requested id. -/
theorem completeAux_marks (task_id : Str) (now : Timestamp) :
    ∀ ts ts' : List Task, completeAux task_id now ts = some ts' →
      ∃ t ∈ ts', t.id = task_id ∧ t.completed = true
  | [], _, h => by cases h
  | t :: ts, ts', h => by
    by_cases hid : t.id = task_id
    · rw [completeAux, if_pos hid] at h
      cases h
      exact ⟨_, List.mem_cons_self _ _, hid, rfl⟩
    · rw [completeAux, if_neg hid] at h
      rcases Option.map_eq_some'.mp h with ⟨u, hu, hcons⟩
      subst hcons
      rcases completeAux_marks task_id now ts u hu with ⟨v, hv, hv1, hv2⟩
      exact ⟨v, List.mem_cons_of_mem _ hv, hv1, hv2⟩

/-! ### Claims -/

/-- C7: the email prefilter is a pure filter: it returns a subsequence of
its input in the original order, together with the original count; an
email of the batch is kept exactly when it is not blocked by a keyword,
domain or sender preference (case-insensitive substring tests); and the
filter applied to its own output returns the same email list. -/
theorem claim_C7 (prefs : Prefs) (emails : List Email) :
    (prefilter_by_prefs prefs emails).1.Sublist emails ∧
    (prefilter_by_prefs prefs emails).2 = emails.length ∧
    (∀ e, e ∈ (prefilter_by_prefs prefs emails).1 ↔
      e ∈ emails ∧ emailBlocked prefs e = false) ∧
    (prefilter_by_prefs prefs (prefilter_by_prefs prefs emails).1).1
      = (prefilter_by_prefs prefs emails).1 := by
  refine ⟨List.filter_sublist _, rfl, ?_, ?_⟩
  · intro e
    simp [prefilter_by_prefs, List.mem_filter]
  · show List.filter _ (List.filter _ emails) = List.filter _ emails
    rw [List.filter_eq_self]
    intro a ha
    exact (List.mem_filter.mp ha).2

/-- C9: brief generation always produces a merged report: a branch that
completed contributes its value, a branch that raised or timed out is
replaced by its placeholder default, and the aggregator's result type has
no error case, so a branch failure is never propagated to the user. -/
theorem claim_C9 (news : Except Str NewsData) (emails : Except Str RankResult)
    (calendar : Except Str (List PyVal)) (tasks : Except Str (List PyVal)) :
    (∀ v, news = .ok v → (generate_brief news emails calendar tasks).news = v) ∧
    (∀ e, news = .error e → (generate_brief news emails calendar tasks).news = newsDefault) ∧
    (∀ v, emails = .ok v → (generate_brief news emails calendar tasks).emails = v) ∧
    (∀ e, emails = .error e → (generate_brief news emails calendar tasks).emails = emailsDefault) ∧
    (∀ v, calendar = .ok v → (generate_brief news emails calendar tasks).calendar = v) ∧
    (∀ e, calendar = .error e → (generate_brief news emails calendar tasks).calendar = []) ∧
    (∀ v, tasks = .ok v → (generate_brief news emails calendar tasks).tasks = v) ∧
    (∀ e, tasks = .error e → (generate_brief news emails calendar tasks).tasks = []) := by
  refine ⟨?_, ?_, ?_, ?_, ?_, ?_, ?_, ?_⟩ <;>
    (intro v h; simp [generate_brief, branchOr, h])

/-- C9 witness: three branches complete, the email branch fails; the
report carries the three real results and the email placeholder. -/
theorem claim_C9_witness :
    (generate_brief (.ok ⟨"n".data, 2⟩) (.error "boom".data) (.ok []) (.ok [])).news
        = ⟨"n".data, 2⟩ ∧
    (generate_brief (.ok ⟨"n".data, 2⟩) (.error "boom".data) (.ok []) (.ok [])).emails
        = emailsDefault ∧
    (generate_brief (.ok ⟨"n".data, 2⟩) (.error "boom".data) (.ok []) (.ok [])).calendar
        = [] :=
  ⟨(claim_C9 _ _ _ _).1 _ rfl, (claim_C9 _ _ _ _).2.2.2.1 _ rfl,
   (claim_C9 _ _ _ _).2.2.2.2.1 _ rfl⟩

/-- C4: when the RRULE string parses, `add_recurrent_task` succeeds,
persists exactly one new template record carrying the rule, and returns
that record's id; when it does not parse, the call fails with a
validation error and the store is unchanged. -/
theorem claim_C4 (rruleOk : Str → Bool) (title r notes priority : Str)
    (start_due : Option Timestamp) (now : Timestamp) (tasks : List Task) :
    (rruleOk r = true →
      ∃ t : Task,
        (add_recurrent_task rruleOk title r notes priority start_due now tasks).1 = .ok t.id ∧
        (add_recurrent_task rruleOk title r notes priority start_due now tasks).2 = tasks ++ [t] ∧
        t.rrule = some r ∧
        (add_recurrent_task rruleOk title r notes priority start_due now tasks).2.length
          = tasks.length + 1) ∧
    (rruleOk r = false →
      (∃ msg, (add_recurrent_task rruleOk title r notes priority start_due now tasks).1
          = .error msg) ∧
      (add_recurrent_task rruleOk title r notes priority start_due now tasks).2 = tasks) := by
  constructor
  · intro h
    refine ⟨mkLocalTask (generate_task_id tasks) title notes priority start_due now (some r),
      ?_, ?_, rfl, ?_⟩ <;> simp [add_recurrent_task, h, mkLocalTask]
  · intro h
    exact ⟨⟨"Invalid RRULE".data, by simp [add_recurrent_task, h]⟩,
      by simp [add_recurrent_task, h]⟩

/-- C4 witness: a concrete valid rule persists one record; a concrete
invalid rule leaves the concrete store unchanged. -/
theorem claim_C4_witness :
    (∃ t : Task,
        (add_recurrent_task (fun _ => true) "pagar".data "FREQ=DAILY".data [] "medium".data
            none ⟨0, 0⟩ []).1 = .ok t.id ∧
        (add_recurrent_task (fun _ => true) "pagar".data "FREQ=DAILY".data [] "medium".data
            none ⟨0, 0⟩ []).2 = [] ++ [t] ∧
        t.rrule = some "FREQ=DAILY".data ∧
        (add_recurrent_task (fun _ => true) "pagar".data "FREQ=DAILY".data [] "medium".data
            none ⟨0, 0⟩ []).2.length = List.length ([] : List Task) + 1) ∧
    ((∃ msg, (add_recurrent_task (fun _ => false) "pagar".data "BOGUS".data [] "medium".data
            none ⟨0, 0⟩ []).1 = .error msg) ∧
      (add_recurrent_task (fun _ => false) "pagar".data "BOGUS".data [] "medium".data
            none ⟨0, 0⟩ []).2 = []) :=
  ⟨(claim_C4 (fun _ => true) "pagar".data "FREQ=DAILY".data [] "medium".data
      none ⟨0, 0⟩ []).1 rfl,
   (claim_C4 (fun _ => false) "pagar".data "BOGUS".data [] "medium".data
      none ⟨0, 0⟩ []).2 rfl⟩

/-- C5: recurrence expansion is idempotent and read-only: listing leaves
the persisted store unchanged, a second listing on the same day yields
the same sequence of ids, and every ephemeral instance comes from a
persisted uncompleted template, its id the template id suffixed with
`_today`. -/
theorem claim_C5 (m : Task → Nat → Bool) (today : Nat) (tasks : List Task) :
    ((list_today_stateful m today tasks).2 = tasks) ∧
    ((list_today_stateful m today ((list_today_stateful m today tasks).2)).1.map Task.id
       = (list_today_stateful m today tasks).1.map Task.id) ∧
    (∀ t ∈ expand_for_today m today tasks,
       ∃ u ∈ tasks, u.rrule.isSome = true ∧ u.completed = false ∧
         t.id = u.id ++ "_today".data) := by
  refine ⟨rfl, rfl, ?_⟩
  intro t ht
  rcases mem_expand_shape ht with ⟨u, hu, h1, h2, h3, _⟩
  exact ⟨u, hu, h1, h2, h3⟩

/-- C5 witness: a daily template expands on day 0 to the instance with id
`T001_today`, which traces back to the persisted template. -/
theorem claim_C5_witness :
    (list_today_stateful (fun _ _ => true) 0 [tmplDiaria]).2 = [tmplDiaria] ∧
    ∃ u ∈ [tmplDiaria], u.rrule.isSome = true ∧ u.completed = false ∧
      ({ tmplDiaria with
          id := tmplDiaria.id ++ "_today".data,
          due := some ⟨0, 0⟩ } : Task).id = u.id ++ "_today".data :=
  ⟨(claim_C5 (fun _ _ => true) 0 [tmplDiaria]).1,
   (claim_C5 (fun _ _ => true) 0 [tmplDiaria]).2.2 _ (by decide)⟩

/-- When `completeAux` succeeds, some task of the input store had the
requested id. -/
theorem completeAux_found (task_id : Str) (now : Timestamp) :
    ∀ ts ts' : List Task, completeAux task_id now ts = some ts' →
      ∃ t ∈ ts, t.id = task_id
  | [], _, h => by cases h
  | t :: ts, ts', h => by
    by_cases hid : t.id = task_id
    · exact ⟨t, List.mem_cons_self _ _, hid⟩
    · rw [completeAux, if_neg hid] at h
      rcases Option.map_eq_some'.mp h with ⟨u, hu, _⟩
      rcases completeAux_found task_id now ts u hu with ⟨v, hv, hv1⟩
      exact ⟨v, List.mem_cons_of_mem _ hv, hv1⟩

/-- C6: `complete_task` returns `true` exactly when a task with the id
exists (a miss returns `false`, not an exception), marks the found task
completed while preserving every task id (the record is retained in
storage), is idempotent (a second call still returns `true`), and a
completed task never appears in `list_today_sorted`, whose members are
all uncompleted. -/
theorem claim_C6 (task_id : Str) (now : Timestamp) (tasks : List Task)
    (m : Task → Nat → Bool) (today : Nat) :
    ((complete_task task_id now tasks).1 = true ↔ ∃ t ∈ tasks, t.id = task_id) ∧
    ((complete_task task_id now tasks).1 = false →
        (complete_task task_id now tasks).2 = tasks) ∧
    ((complete_task task_id now tasks).1 = true →
        ∃ t ∈ (complete_task task_id now tasks).2, t.id = task_id ∧ t.completed = true) ∧
    ((complete_task task_id now tasks).2.map Task.id = tasks.map Task.id) ∧
    ((complete_task task_id now tasks).1 = true →
        (complete_task task_id now (complete_task task_id now tasks).2).1 = true) ∧
    (∀ t ∈ list_today_sorted m today (complete_task task_id now tasks).2,
        t.completed = false) := by
  rcases h : completeAux task_id now tasks with _ | ts'
  · have hall := (completeAux_eq_none_iff task_id now tasks).mp h
    refine ⟨?_, fun _ => by simp [complete_task, h], ?_, by simp [complete_task, h], ?_,
      fun t ht => mem_list_today_not_completed ht⟩
    · simp only [complete_task, h]
      constructor
      · intro hfalse; cases hfalse
      · rintro ⟨t, ht, hid⟩; exact absurd hid (hall t ht)
    · intro htrue; simp [complete_task, h] at htrue
    · intro htrue; simp [complete_task, h] at htrue
  · refine ⟨?_, ?_, ?_, ?_, ?_, fun t ht => mem_list_today_not_completed ht⟩
    · simp only [complete_task, h]
      exact ⟨fun _ => completeAux_found task_id now tasks ts' h, fun _ => trivial⟩
    · intro hfalse; simp [complete_task, h] at hfalse
    · intro _
      simp only [complete_task, h]
      exact completeAux_marks task_id now tasks ts' h
    · simp only [complete_task, h]
      exact completeAux_map_id task_id now tasks ts' h
    · intro _
      simp only [complete_task, h]
      rcases completeAux_marks task_id now tasks ts' h with ⟨t, ht, hid, _⟩
      rcases h2 : completeAux task_id now ts' with _ | ts''
      · exact absurd hid ((completeAux_eq_none_iff task_id now ts').mp h2 t ht)
      · simp [complete_task, h2]

/-- C6 witness: completing `T001` in a store holding it succeeds, and
completing it a second time succeeds again. -/
theorem claim_C6_witness :
    (complete_task "T001".data ⟨1, 0⟩ [renta]).1 = true ∧
    (complete_task "T001".data ⟨1, 0⟩ (complete_task "T001".data ⟨1, 0⟩ [renta]).2).1 = true := by
  have h1 : (complete_task "T001".data ⟨1, 0⟩ [renta]).1 = true :=
    (claim_C6 "T001".data ⟨1, 0⟩ [renta] (fun _ _ => false) 0).1.mpr
      ⟨renta, List.mem_singleton.mpr rfl, rfl⟩
  exact ⟨h1, (claim_C6 "T001".data ⟨1, 0⟩ [renta] (fun _ _ => false) 0).2.2.2.2.1 h1⟩

/-- `keyLe` is transitive. -/
theorem keyLe_trans : ∀ a b c : Task, keyLe a b → keyLe b c → keyLe a c := by
  intro a b c hab hbc
  simp only [keyLe, decide_eq_true_eq] at *
  omega

/-- `keyLe` is total. -/
theorem keyLe_total : ∀ a b : Task, keyLe a b || keyLe b a := by
  intro a b
  rw [Bool.or_eq_true]
  simp only [keyLe, decide_eq_true_eq]
  omega

/-- C3: `list_today_sorted` returns exactly the selected tasks (a
permutation of the regular selection plus the expanded instances),
ordered by the sort key — priority rank ascending, then due hour
ascending, a missing due time counting as hour 0 — and on the store
{A: high/10, B: high/08, C: medium/09} the returned order is [B, A, C]. -/
theorem claim_C3 :
    (∀ (m : Task → Nat → Bool) (today : Nat) (tasks : List Task),
      (list_today_sorted m today tasks).Perm
          (selectRegularToday today tasks ++ expand_for_today m today tasks) ∧
      (list_today_sorted m today tasks).Pairwise (fun a b => keyLe a b = true)) ∧
    (∀ t : Task, t.due = none → sortKey t = (priorityRank t.priority, 0)) ∧
    ((list_today_sorted (fun _ _ => false) 0 [taskA, taskB, taskC]).map Task.id
       = ["B".data, "A".data, "C".data]) := by
  refine ⟨fun m today tasks => ⟨List.mergeSort_perm _ _, ?_⟩, ?_, ?_⟩
  · exact List.sorted_mergeSort keyLe_trans keyLe_total _
  · intro t h
    simp [sortKey, h]
  · simp +decide [list_today_sorted, selectRegularToday, expand_for_today, taskA, taskB,
      taskC, mkLocalTask, List.mergeSort, List.splitInTwo, List.splitAt, List.splitAt.go,
      List.merge, keyLe, sortKey, priorityRank]

/-- C3 witness: a task with no due timestamp sorts with hour 0. -/
theorem claim_C3_witness :
    sortKey (mkLocalTask "D".data "D".data [] "high".data none ⟨0, 0⟩ none)
      = (priorityRank "high".data, 0) :=
  claim_C3.2.1 _ rfl

/-- C1: the fallback decorator invokes the primary first (a successful
primary's value is returned unchanged); on a primary exception the
fallback is invoked with the same argument and its value returned; if the
fallback also fails, the hard-coded safe default keyed by the operation's
name is returned (clarify result for routing, empty ranking result for
ranking, unavailable message for summarization, generic message
otherwise) — the wrapper's result type has no error case, so no exception
propagates.  In particular, with a raising AI client, routing
"añadir comprar leche" still yields intent "add" via the keyword
fallback. -/
theorem claim_C1 (α : Type) (p f : α → Except Str PyVal) (x : α) (e0 : Str) :
    (∀ fname v, p x = .ok v → with_ai_fallback fname p f x = v) ∧
    (∀ fname e v, p x = .error e → f x = .ok v → with_ai_fallback fname p f x = v) ∧
    (∀ fname e e', p x = .error e → f x = .error e' →
        with_ai_fallback fname p f x = get_safe_default fname) ∧
    (get_safe_default "route_instruction".data =
      .dict [("intent".data, .s "clarify".data),
             ("message".data, .s "Error en procesamiento de IA".data)]) ∧
    (get_safe_default "rank_emails_with_gemini".data =
      .dict [("emails".data, .list []), ("found".data, .n 0), ("considered".data, .n 0),
             ("selected".data, .n 0), ("rationale".data, .s "Error en ranking".data)]) ∧
    (get_safe_default "summarize_news_list".data =
      .s "Resumen no disponible (error en IA y fallback)".data) ∧
    (get_safe_default "fetch_data".data = .s "Error en función de IA".data) ∧
    ((with_ai_fallback "route_instruction".data (fun _ => .error e0)
        (fun s => .ok (fallback_route_instruction s)) "añadir comprar leche".data).getKey
        "intent".data = some (.s "add".data)) := by
  refine ⟨?_, ?_, ?_, by rfl, by rfl, by rfl, by rfl, by rfl⟩
  · intro fname v h
    simp [with_ai_fallback, h]
  · intro fname e v h1 h2
    simp [with_ai_fallback, h1, h2]
  · intro fname e e' h1 h2
    simp [with_ai_fallback, h1, h2]

/-- C1 witness: the three wrapper outcomes at concrete inputs — fallback
substitution, primary success, and the double-failure safe default. -/
theorem claim_C1_witness :
    with_ai_fallback "route_instruction".data (fun _ : Unit => Except.error "ai down".data)
        (fun _ => Except.ok (PyVal.s "ok".data)) () = PyVal.s "ok".data ∧
    with_ai_fallback "x".data (fun _ : Unit => Except.ok (PyVal.n 7))
        (fun _ => Except.error "nope".data) () = PyVal.n 7 ∧
    with_ai_fallback "route_instruction".data (fun _ : Unit => Except.error "a".data)
        (fun _ => Except.error "b".data) () = get_safe_default "route_instruction".data :=
  ⟨(claim_C1 Unit (fun _ => Except.error "ai down".data)
      (fun _ => Except.ok (PyVal.s "ok".data)) () []).2.1 _ "ai down".data _ rfl rfl,
   (claim_C1 Unit (fun _ => Except.ok (PyVal.n 7))
      (fun _ => Except.error "nope".data) () []).1 _ _ rfl,
   (claim_C1 Unit (fun _ => Except.error "a".data)
      (fun _ => Except.error "b".data) () []).2.2.1 _ _ _ rfl rfl⟩

/-- C2: the fallback router classifies by substring matching against the
fixed Spanish lexicon, first matching branch wins: an `add` keyword gives
intent "add"; failing that, a `recur` keyword gives "recur"; then a
`list` keyword gives "listar"; then, in a completion instruction, a
`t_[a-f0-9]{8}` token gives "completar" with that token as id; an
instruction matching no keyword branch yields intent "clarify" with a
non-empty message; and the intent field is always set. -/
theorem claim_C2 (instr : Str) :
    ((fallback_route_instruction instr).getKey "intent".data ≠ none) ∧
    (anyKw addKeywords (pyLower instr) = true →
      (fallback_route_instruction instr).getKey "intent".data = some (.s "add".data)) ∧
    (anyKw addKeywords (pyLower instr) = false →
     anyKw recurKeywords (pyLower instr) = true →
      (fallback_route_instruction instr).getKey "intent".data = some (.s "recur".data)) ∧
    (anyKw addKeywords (pyLower instr) = false →
     anyKw recurKeywords (pyLower instr) = false →
     anyKw listKeywords (pyLower instr) = true →
      (fallback_route_instruction instr).getKey "intent".data = some (.s "listar".data)) ∧
    (anyKw addKeywords (pyLower instr) = false →
     anyKw recurKeywords (pyLower instr) = false →
     anyKw listKeywords (pyLower instr) = false →
     anyKw doneKeywords (pyLower instr) = true →
     ∀ tok, searchTaskId instr = some tok →
      (fallback_route_instruction instr).getKey "intent".data = some (.s "completar".data) ∧
      (fallback_route_instruction instr).getKey "args".data
        = some (.dict [("id".data, .s tok)])) ∧
    (anyKw addKeywords (pyLower instr) = false →
     anyKw recurKeywords (pyLower instr) = false →
     anyKw listKeywords (pyLower instr) = false →
     anyKw doneKeywords (pyLower instr) = false →
     anyKw briefKeywords (pyLower instr) = false →
     anyKw prefsKeywords (pyLower instr) = false →
      (fallback_route_instruction instr).getKey "intent".data = some (.s "clarify".data) ∧
      ∃ msg : Str, (fallback_route_instruction instr).getKey "message".data = some (.s msg)
        ∧ msg ≠ []) := by
  refine ⟨?_, ?_, ?_, ?_, ?_, ?_⟩
  · by_cases h1 : anyKw addKeywords (pyLower instr) = true
    · simp [fallback_route_instruction, h1, PyVal.getKey, assocGet]
    by_cases h2 : anyKw recurKeywords (pyLower instr) = true
    · simp [fallback_route_instruction, h1, h2, PyVal.getKey, assocGet]
    by_cases h3 : anyKw listKeywords (pyLower instr) = true
    · simp [fallback_route_instruction, h1, h2, h3, PyVal.getKey, assocGet]
    by_cases h4 : anyKw doneKeywords (pyLower instr) = true
    · rcases h : searchTaskId instr with _ | tok <;>
        simp [fallback_route_instruction, h1, h2, h3, h4, h, PyVal.getKey, assocGet]
    by_cases h5 : anyKw briefKeywords (pyLower instr) = true
    · simp [fallback_route_instruction, h1, h2, h3, h4, h5, PyVal.getKey, assocGet]
    by_cases h6 : anyKw prefsKeywords (pyLower instr) = true
    · simp [fallback_route_instruction, h1, h2, h3, h4, h5, h6, PyVal.getKey, assocGet]
    · simp [fallback_route_instruction, h1, h2, h3, h4, h5, h6, PyVal.getKey, assocGet]
  · intro h1
    simp [fallback_route_instruction, h1, PyVal.getKey, assocGet]
  · intro h1 h2
    simp [fallback_route_instruction, h1, h2, PyVal.getKey, assocGet]
  · intro h1 h2 h3
    simp [fallback_route_instruction, h1, h2, h3, PyVal.getKey, assocGet]
  · intro h1 h2 h3 h4 tok htok
    simp [fallback_route_instruction, h1, h2, h3, h4, htok, PyVal.getKey, assocGet]
  · intro h1 h2 h3 h4 h5 h6
    refine ⟨?_, "No pude entender la instrucción (modo fallback)".data, ?_, by simp⟩ <;>
      simp [fallback_route_instruction, h1, h2, h3, h4, h5, h6, PyVal.getKey, assocGet]

/-- C2 witness: a no-keyword instruction yields clarify with a non-empty
message, and a completion instruction with a task-id token yields
completar carrying that id. -/
theorem claim_C2_witness :
    ((fallback_route_instruction "zzz".data).getKey "intent".data
        = some (.s "clarify".data) ∧
     ∃ msg : Str, (fallback_route_instruction "zzz".data).getKey "message".data
        = some (.s msg) ∧ msg ≠ []) ∧
    ((fallback_route_instruction "hecho t_12345678".data).getKey "intent".data
        = some (.s "completar".data) ∧
     (fallback_route_instruction "hecho t_12345678".data).getKey "args".data
        = some (.dict [("id".data, .s "t_12345678".data)])) :=
  ⟨(claim_C2 "zzz".data).2.2.2.2.2 (by decide) (by decide) (by decide) (by decide)
      (by decide) (by decide),
   (claim_C2 "hecho t_12345678".data).2.2.2.2.1 (by decide) (by decide) (by decide)
      (by decide) "t_12345678".data (by decide)⟩

/-- C8 counterexample: on the heuristic fallback path with 51 filtered
emails, `considered` is 51, not `min 51 50 = 50` — `fallback_rank_emails`
reports the whole filtered count with no 50 cap, refuting the claim that
`considered = min(filtered count, 50)` holds on both paths. -/
theorem claim_C8_counterexample :
    (fallback_rank_emails (List.replicate 51 ⟨"a".data, "b".data⟩) 10).considered
      ≠ min (List.replicate 51 (⟨"a".data, "b".data⟩ : Email)).length 50 := by
  decide

/-- C8 (amended): the ranking contract.  On the AI path with a non-empty
filtered batch: `found` is the filtered batch size, `considered` is
`min(filtered count, 50)`, `selected` is the length of the resolved list,
and the returned emails are the first `top_k` resolved ones; an empty
batch yields the zero contract.  Position resolution silently drops any
out-of-range index and only returns emails of the input batch.  On the
heuristic fallback path, `found` and `considered` both equal the filtered
count (no 50 cap — this is where the original claim fails), and
`selected` is the length of the returned list, `min top_k count`. -/
theorem claim_C8 :
    (∀ (resp : AIRankResponse) (emails : List Email) (top_k : Nat), emails ≠ [] →
      ∃ res, rank_emails_with_gemini (.ok resp) emails top_k = .ok res ∧
        res.found = emails.length ∧
        res.considered = min emails.length 50 ∧
        res.selected = (resolvePositions resp.selected emails).length ∧
        res.emails = (resolvePositions resp.selected emails).take top_k) ∧
    (∀ (ai : Except Str AIRankResponse) (top_k : Nat),
      rank_emails_with_gemini ai [] top_k
        = .ok ⟨[], 0, 0, 0, "No emails to process".data⟩) ∧
    (∀ (i : Int) (idxs : List Int) (emails : List Email),
      ¬(1 ≤ i ∧ i ≤ (emails.length : Int)) →
        resolvePositions (i :: idxs) emails = resolvePositions idxs emails) ∧
    (∀ (idxs : List Int) (emails : List Email),
      ∀ e ∈ resolvePositions idxs emails, e ∈ emails) ∧
    (∀ (emails : List Email) (top_k : Nat), emails ≠ [] →
      (fallback_rank_emails emails top_k).found = emails.length ∧
      (fallback_rank_emails emails top_k).considered = emails.length ∧
      (fallback_rank_emails emails top_k).selected
        = (fallback_rank_emails emails top_k).emails.length ∧
      (fallback_rank_emails emails top_k).selected = min top_k emails.length) := by
  refine ⟨?_, fun ai top_k => rfl, ?_, ?_, ?_⟩
  · intro resp emails top_k h
    have hne : emails.isEmpty = false := by
      cases emails with
      | nil => exact absurd rfl h
      | cons a l => rfl
    refine ⟨⟨(resolvePositions resp.selected emails).take top_k, emails.length,
      min emails.length 50, (resolvePositions resp.selected emails).length,
      resp.rationale⟩, ?_, rfl, rfl, rfl, rfl⟩
    simp [rank_emails_with_gemini, hne]
  · intro i idxs emails h
    simp [resolvePositions, List.filterMap_cons, if_neg h]
  · intro idxs emails e he
    rcases List.mem_filterMap.mp he with ⟨i, _, hi⟩
    by_cases hr : 1 ≤ i ∧ i ≤ (emails.length : Int)
    · rw [if_pos hr] at hi
      rcases List.get?_eq_some.mp hi with ⟨hlt, hget⟩
      exact hget ▸ List.get_mem emails _ hlt
    · rw [if_neg hr] at hi
      cases hi
  · intro emails top_k h
    have hne : emails.isEmpty = false := by
      cases emails with
      | nil => exact absurd rfl h
      | cons a l => rfl
    refine ⟨?_, ?_, ?_, ?_⟩ <;>
      simp [fallback_rank_emails, hne, List.length_take, List.length_mergeSort,
        List.length_map]

/-- C8 witness: the amended contract evaluated on a concrete two-email
batch with an in-range, an out-of-range and a duplicate position. -/
theorem claim_C8_witness :
    (∃ res, rank_emails_with_gemini (.ok ⟨[2, 7, 1], "r".data⟩)
        [⟨"s1".data, "x".data⟩, ⟨"s2".data, "y".data⟩] 1 = .ok res ∧
      res.found = 2 ∧
      res.considered = min 2 50 ∧
      res.selected = (resolvePositions [2, 7, 1]
          [⟨"s1".data, "x".data⟩, ⟨"s2".data, "y".data⟩]).length ∧
      res.emails = (resolvePositions [2, 7, 1]
          [⟨"s1".data, "x".data⟩, ⟨"s2".data, "y".data⟩]).take 1) ∧
    (fallback_rank_emails [⟨"s1".data, "x".data⟩, ⟨"s2".data, "y".data⟩] 1).selected
      = min 1 2 := by
  constructor
  · have h := claim_C8.1 ⟨[2, 7, 1], "r".data⟩
      [⟨"s1".data, "x".data⟩, ⟨"s2".data, "y".data⟩] 1 (by decide)
    rcases h with ⟨res, h1, h2, h3, h4, h5⟩
    exact ⟨res, h1, h2.trans (by decide), h3.trans (by decide), h4, h5⟩
  · exact (claim_C8.2.2.2.2 [⟨"s1".data, "x".data⟩, ⟨"s2".data, "y".data⟩] 1 (by decide)).2.2.2

/-- `Char.ofNat` round-trips through `toNat` below the surrogate range. -/
theorem toNat_ofNat_small {n : Nat} (h : n < 55296) : (Char.ofNat n).toNat = n := by
  simp only [Char.ofNat, Char.toNat]
  rw [dif_pos (Or.inl h)]
  simp [Char.ofNatAux, UInt32.ofNat', UInt32.toNat]

/-- `digitCh` always yields a decimal digit character. -/
theorem isDecDigit_digitCh (n : Nat) : isDecDigit (digitCh n) = true := by
  have h : n % 10 < 10 := Nat.mod_lt _ (by omega)
  simp only [isDecDigit, digitCh, decide_eq_true_eq]
  rw [toNat_ofNat_small (by omega)]
  omega

/-- A decimal digit character differs from any non-digit character. -/
theorem ne_of_digit {c x : Char} (h : isDecDigit c = true) (hx : isDecDigit x = false) :
    c ≠ x := by
  intro heq; rw [heq, hx] at h; cases h

/-- Lowercasing fixes decimal digit characters. -/
theorem toLowerCh_digit {c : Char} (h : isDecDigit c = true) : toLowerCh c = c := by
  have hv : 48 ≤ c.toNat ∧ c.toNat ≤ 57 := by simpa [isDecDigit] using h
  have h1 : ¬('A' ≤ c ∧ c ≤ 'Z') := by
    rintro ⟨ha, _⟩
    rw [Char.le_def] at ha
    have : (65 : Nat) ≤ c.toNat := by simpa [Char.toNat] using ha
    omega
  have hne : ∀ x : Char, isDecDigit x = false → ¬ c = x := fun x hx heq => by
    rw [heq, hx] at h; cases h
  rw [toLowerCh, if_neg h1, if_neg (hne _ (by decide)), if_neg (hne _ (by decide)),
    if_neg (hne _ (by decide)), if_neg (hne _ (by decide)), if_neg (hne _ (by decide)),
    if_neg (hne _ (by decide))]

/-- Lowercasing fixes all-digit strings. -/
theorem pyLower_digits {ds : Str} (h : ∀ c ∈ ds, isDecDigit c = true) :
    pyLower ds = ds := by
  induction ds with
  | nil => rfl
  | cons c rest ih =>
      rw [pyLower, List.map_cons, toLowerCh_digit (h c (List.mem_cons_self c rest))]
      exact congrArg _ (ih (fun d hd => h d (List.mem_cons_of_mem c hd)))

/-- A needle opening with a non-digit never starts an all-digit string. -/
theorem startsWithL_digits {c : Char} (hc : isDecDigit c = false) (n : Str) :
    ∀ ds : Str, (∀ d ∈ ds, isDecDigit d = true) → startsWithL (c :: n) ds = false := by
  intro ds hds
  cases ds with
  | nil => rfl
  | cons d rs =>
      have : (c == d) = false :=
        beq_eq_false_iff_ne.mpr (ne_of_digit (hds d (List.mem_cons_self d rs)) hc).symm
      simp [startsWithL, this]

/-- A needle opening with a non-digit is not contained in an all-digit
string. -/
theorem pyContains_digits {c : Char} (hc : isDecDigit c = false) (n : Str) :
    ∀ ds : Str, (∀ d ∈ ds, isDecDigit d = true) → pyContains (c :: n) ds = false := by
  intro ds
  induction ds with
  | nil => intro _; rfl
  | cons d rs ih =>
      intro hds
      rw [pyContains, Bool.or_eq_false_iff]
      exact ⟨startsWithL_digits hc n (d :: rs) hds,
        ih (fun x hx => hds x (List.mem_cons_of_mem d hx))⟩

/-- The task-id regex cannot match at a head other than `t`. -/
theorem taskIdHere_false_head {c : Char} (h : c ≠ 't') :
    ∀ rest : Str, taskIdHere (c :: rest) = false := by
  intro rest
  cases rest with
  | nil => rfl
  | cons d rs =>
      have : (c == 't') = false := beq_eq_false_iff_ne.mpr h
      simp [taskIdHere, this]

/-- The task-id regex finds no match in an all-digit string. -/
theorem searchTaskId_digits : ∀ ds : Str, (∀ c ∈ ds, isDecDigit c = true) →
    searchTaskId ds = none := by
  intro ds
  induction ds with
  | nil => intro _; rfl
  | cons c rs ih =>
      intro hds
      rw [searchTaskId,
        if_neg (by
          rw [taskIdHere_false_head
            (ne_of_digit (hds c (List.mem_cons_self c rs)) (by decide)) rs]
          exact Bool.false_ne_true)]
      exact ih (fun x hx => hds x (List.mem_cons_of_mem c hx))

/-- The task-id regex finds no match in `completar T` followed by digits:
the only `t` of the text is followed by `a`, and the suffix holds no `t`
at all. -/
theorem searchTaskId_completar {ds : Str} (hds : ∀ c ∈ ds, isDecDigit c = true) :
    searchTaskId ("completar ".data ++ 'T' :: ds) = none := by
  show searchTaskId
    ('c' :: 'o' :: 'm' :: 'p' :: 'l' :: 'e' :: 't' :: 'a' :: 'r' :: ' ' :: 'T' :: ds) = none
  rw [show searchTaskId
      ('c' :: 'o' :: 'm' :: 'p' :: 'l' :: 'e' :: 't' :: 'a' :: 'r' :: ' ' :: 'T' :: ds)
      = searchTaskId ('T' :: ds) from rfl]
  rw [searchTaskId, if_neg (by
    rw [taskIdHere_false_head (by decide) ds]
    exact Bool.false_ne_true)]
  exact searchTaskId_digits ds hds

/-- Lowercasing `completar T<digits>` gives `completar t<digits>`. -/
theorem pyLower_completar {ds : Str} (hds : ∀ c ∈ ds, isDecDigit c = true) :
    pyLower ("completar ".data ++ 'T' :: ds) = "completar t".data ++ ds := by
  rw [pyLower, List.map_append]
  have h1 : List.map toLowerCh "completar ".data = "completar ".data := by decide
  have h2 : List.map toLowerCh ('T' :: ds) = 't' :: ds := by
    rw [List.map_cons, show toLowerCh 'T' = 't' from by decide]
    exact congrArg _ (pyLower_digits hds)
  rw [h1, h2]
  rfl

/-- No `add` keyword occurs in `completar t<digits>`. -/
theorem anyKw_add_completar {ds : Str} (hds : ∀ c ∈ ds, isDecDigit c = true) :
    anyKw addKeywords ("completar t".data ++ ds) = false := by
  have h1 : pyContains "add".data ds = false :=
    pyContains_digits (by decide) "dd".data ds hds
  have h2 : pyContains "añadir".data ds = false :=
    pyContains_digits (by decide) "ñadir".data ds hds
  have h3 : pyContains "crear".data ds = false :=
    pyContains_digits (by decide) "rear".data ds hds
  have h4 : pyContains "necesito".data ds = false :=
    pyContains_digits (by decide) "ecesito".data ds hds
  show anyKw addKeywords
    ('c' :: 'o' :: 'm' :: 'p' :: 'l' :: 'e' :: 't' :: 'a' :: 'r' :: ' ' :: 't' :: ds) = false
  simp +decide [anyKw, addKeywords, pyContains, startsWithL, h1, h2, h3, h4]

/-- No `recur` keyword occurs in `completar t<digits>`. -/
theorem anyKw_recur_completar {ds : Str} (hds : ∀ c ∈ ds, isDecDigit c = true) :
    anyKw recurKeywords ("completar t".data ++ ds) = false := by
  have h1 : pyContains "recur".data ds = false :=
    pyContains_digits (by decide) "ecur".data ds hds
  have h2 : pyContains "repetir".data ds = false :=
    pyContains_digits (by decide) "epetir".data ds hds
  have h3 : pyContains "cada".data ds = false :=
    pyContains_digits (by decide) "ada".data ds hds
  have h4 : pyContains "diario".data ds = false :=
    pyContains_digits (by decide) "iario".data ds hds
  show anyKw recurKeywords
    ('c' :: 'o' :: 'm' :: 'p' :: 'l' :: 'e' :: 't' :: 'a' :: 'r' :: ' ' :: 't' :: ds) = false
  simp +decide [anyKw, recurKeywords, pyContains, startsWithL, h1, h2, h3, h4]

/-- No `listar` keyword occurs in `completar t<digits>`. -/
theorem anyKw_list_completar {ds : Str} (hds : ∀ c ∈ ds, isDecDigit c = true) :
    anyKw listKeywords ("completar t".data ++ ds) = false := by
  have h1 : pyContains "list".data ds = false :=
    pyContains_digits (by decide) "ist".data ds hds
  have h2 : pyContains "mostrar".data ds = false :=
    pyContains_digits (by decide) "ostrar".data ds hds
  have h3 : pyContains "tareas".data ds = false :=
    pyContains_digits (by decide) "areas".data ds hds
  have h4 : startsWithL "areas".data ds = false :=
    startsWithL_digits (by decide) "reas".data ds hds
  show anyKw listKeywords
    ('c' :: 'o' :: 'm' :: 'p' :: 'l' :: 'e' :: 't' :: 'a' :: 'r' :: ' ' :: 't' :: ds) = false
  simp +decide [anyKw, listKeywords, pyContains, startsWithL, h1, h2, h3, h4]

/-- The `completar` keyword does occur in `completar t<digits>`. -/
theorem anyKw_done_completar (ds : Str) :
    anyKw doneKeywords ("completar t".data ++ ds) = true := by
  show anyKw doneKeywords
    ('c' :: 'o' :: 'm' :: 'p' :: 'l' :: 'e' :: 't' :: 'a' :: 'r' :: ' ' :: 't' :: ds) = true
  simp +decide [anyKw, doneKeywords, pyContains, startsWithL]

/-- The digits of a number are decimal digit characters. -/
theorem natDigitsAux_digits : ∀ fuel n : Nat, ∀ c ∈ natDigitsAux fuel n,
    isDecDigit c = true := by
  intro fuel
  induction fuel with
  | zero =>
      intro n c hc
      rw [natDigitsAux] at hc
      rcases List.mem_singleton.mp hc with rfl
      exact isDecDigit_digitCh n
  | succ f ih =>
      intro n c hc
      rw [natDigitsAux] at hc
      by_cases h : n < 10
      · rw [if_pos h] at hc
        rcases List.mem_singleton.mp hc with rfl
        exact isDecDigit_digitCh n
      · rw [if_neg h] at hc
        rcases List.mem_append.mp hc with hc | hc
        · exact ih (n / 10) c hc
        · rcases List.mem_singleton.mp hc with rfl
          exact isDecDigit_digitCh n

/-- The zero-padded counter rendering is all decimal digits. -/
theorem pad3_digits (n : Nat) : ∀ c ∈ pad3 n, isDecDigit c = true := by
  intro c hc
  rw [pad3] at hc
  split_ifs at hc
  · simp only [List.mem_cons, List.not_mem_nil, or_false] at hc
    rcases hc with rfl | rfl | rfl <;> first | decide | exact isDecDigit_digitCh n
  · simp only [List.mem_cons, List.not_mem_nil, or_false] at hc
    rcases hc with rfl | rfl | rfl <;> first | decide | exact isDecDigit_digitCh _
  · simp only [List.mem_cons, List.not_mem_nil, or_false] at hc
    rcases hc with rfl | rfl | rfl <;> exact isDecDigit_digitCh _
  · exact natDigitsAux_digits n n c hc

/-- The id loop always returns a formatted counter at least its start. -/
theorem genIdLoop_shape (ex : List Str) : ∀ fuel c : Nat,
    ∃ n, c ≤ n ∧ genIdLoop ex fuel c = taskIdFmt n := by
  intro fuel
  induction fuel with
  | zero => intro c; exact ⟨c, Nat.le_refl c, rfl⟩
  | succ f ih =>
      intro c
      rw [genIdLoop]
      by_cases h : taskIdFmt c ∈ ex
      · rw [if_pos h]
        rcases ih (c + 1) with ⟨n, hn, he⟩
        exact ⟨n, by omega, he⟩
      · rw [if_neg h]
        exact ⟨c, Nat.le_refl c, rfl⟩

/-- The id loop skips exactly the occupied counters: if the `j` counters
from `c` on are taken and `c + j` is free, it returns `taskIdFmt (c+j)`. -/
theorem genIdLoop_advance (ex : List Str) :
    ∀ j c fuel : Nat, (∀ k, c ≤ k → k < c + j → taskIdFmt k ∈ ex) →
      taskIdFmt (c + j) ∉ ex → genIdLoop ex (fuel + j + 1) c = taskIdFmt (c + j) := by
  intro j
  induction j with
  | zero =>
      intro c fuel _ hout
      rw [Nat.add_zero] at hout
      rw [genIdLoop, if_neg hout, Nat.add_zero]
  | succ j ih =>
      intro c fuel hin hout
      have hc : taskIdFmt c ∈ ex := hin c (Nat.le_refl c) (by omega)
      rw [genIdLoop, if_pos hc]
      rw [show c + (j + 1) = c + 1 + j from by omega] at hout ⊢
      exact ih (c + 1) fuel (fun k hk1 hk2 => hin k (by omega) (by omega)) hout

/-- `pad3` has width exactly three up to 999. -/
theorem pad3_length {n : Nat} (h : n ≤ 999) : (pad3 n).length = 3 := by
  rw [pad3]
  split_ifs with h1 h2 h3
  · rfl
  · rfl
  · rfl
  · omega

/-- Every counter in `1 .. 999` is taken in `store999`. -/
theorem store999_mem {k : Nat} (h1 : 1 ≤ k) (h2 : k < 1000) :
    taskIdFmt k ∈ store999.map Task.id := by
  rw [store999, List.map_map]
  refine List.mem_map.mpr ⟨k - 1, List.mem_range.mpr (by omega), ?_⟩
  show taskIdFmt (k - 1 + 1) = taskIdFmt k
  congr 1
  omega

/-- Counter 1000 is free in `store999`: its rendering is five characters,
the stored ids are four. -/
theorem store999_not_mem : taskIdFmt 1000 ∉ store999.map Task.id := by
  rw [store999, List.map_map]
  intro hmem
  rcases List.mem_map.mp hmem with ⟨i, hi, heq⟩
  have hi' : i < 999 := List.mem_range.mp hi
  have heq' : taskIdFmt (i + 1) = taskIdFmt 1000 := heq
  have hlen : (taskIdFmt (i + 1)).length = 4 := by
    show ('T' :: pad3 (i + 1)).length = 4
    rw [List.length_cons, pad3_length (by omega)]
  rw [heq'] at hlen
  have : (taskIdFmt 1000).length = 5 := by decide
  omega

/-- C10 counterexample: in a store already holding `T001 .. T999`, the
next issued id is `T1000` — the letter `T` followed by four decimal
digits, not three, refuting the claimed id shape. -/
theorem claim_C10_counterexample :
    (add_task "x".data [] "medium".data none ⟨0, 0⟩ store999).1 = "T1000".data ∧
    ¬ ∃ d1 d2 d3 : Char,
        (add_task "x".data [] "medium".data none ⟨0, 0⟩ store999).1 = ['T', d1, d2, d3] := by
  have hid : (add_task "x".data [] "medium".data none ⟨0, 0⟩ store999).1 = "T1000".data := by
    have e0 : ∀ (t nt p : Str) (d : Option Timestamp) (ts : Timestamp) (tasks : List Task),
        (add_task t nt p d ts tasks).1 = generate_task_id tasks :=
      fun _ _ _ _ _ _ => rfl
    have e1 : ∀ tasks : List Task, generate_task_id tasks
        = genIdLoop (tasks.map Task.id) (tasks.length + 1) 1 :=
      fun _ => rfl
    rw [e0, e1]
    have hlen : store999.length = 999 := by
      rw [store999, List.length_map, List.length_range]
    rw [hlen]
    have hadv := genIdLoop_advance (store999.map Task.id) 999 1 0
      (fun k hk1 hk2 => store999_mem hk1 (by omega))
      (by
        have h1000 : (1 : Nat) + 999 = 1000 := by omega
        rw [h1000]
        exact store999_not_mem)
    rw [show (999 : Nat) + 1 = 0 + 999 + 1 from by omega]
    rw [hadv]
    decide
  refine ⟨hid, ?_⟩
  rintro ⟨d1, d2, d3, h⟩
  have hx : "T1000".data = ['T', d1, d2, d3] := hid.symm.trans h
  have := congrArg List.length hx
  simp at this

/-- A completion instruction with no extractable task id routes to the
clarify result with the could-not-identify message. -/
theorem fallback_route_clarify_of (instr : Str)
    (h1 : anyKw addKeywords (pyLower instr) = false)
    (h2 : anyKw recurKeywords (pyLower instr) = false)
    (h3 : anyKw listKeywords (pyLower instr) = false)
    (h4 : anyKw doneKeywords (pyLower instr) = true)
    (h5 : searchTaskId instr = none) :
    fallback_route_instruction instr
      = .dict [("intent".data, .s "clarify".data),
               ("message".data, .s "No pude identificar el ID de la tarea".data)] := by
  simp [fallback_route_instruction, h1, h2, h3, h4, h5]

/-- C10 (amended): every id issued by the store is `T` followed by the
decimal digits of a positive counter, zero-padded to at least three
(`T001 .. T999`, then `T1000`, ...); the fallback completion pattern
`t_[a-f0-9]{8}` can never match such an id, so a fallback-routed
completion instruction carrying only a store-issued id yields intent
`clarify` with the could-not-identify message, never `completar`. -/
theorem claim_C10 (tasks : List Task) (title notes priority : Str)
    (due : Option Timestamp) (now : Timestamp) :
    ((add_task title notes priority due now tasks).1 = generate_task_id tasks) ∧
    ((add_recurrent_task (fun _ => true) title "FREQ=DAILY".data notes priority due now
        tasks).1 = .ok (generate_task_id tasks)) ∧
    (∃ n, 1 ≤ n ∧ generate_task_id tasks = taskIdFmt n) ∧
    (∀ n : Nat,
      (fallback_route_instruction ("completar ".data ++ taskIdFmt n)).getKey "intent".data
        = some (.s "clarify".data) ∧
      (fallback_route_instruction ("completar ".data ++ taskIdFmt n)).getKey "message".data
        = some (.s "No pude identificar el ID de la tarea".data)) := by
  refine ⟨rfl, rfl, ?_, ?_⟩
  · exact genIdLoop_shape (tasks.map Task.id) (tasks.length + 1) 1
  · intro n
    have hds := pad3_digits n
    have hlow := pyLower_completar hds
    have hroute := fallback_route_clarify_of ("completar ".data ++ 'T' :: pad3 n)
      (by rw [hlow]; exact anyKw_add_completar hds)
      (by rw [hlow]; exact anyKw_recur_completar hds)
      (by rw [hlow]; exact anyKw_list_completar hds)
      (by rw [hlow]; exact anyKw_done_completar (pad3 n))
      (searchTaskId_completar hds)
    constructor
    · show (fallback_route_instruction ("completar ".data ++ 'T' :: pad3 n)).getKey
          "intent".data = some (.s "clarify".data)
      rw [hroute]
      rfl
    · show (fallback_route_instruction ("completar ".data ++ 'T' :: pad3 n)).getKey
          "message".data = some (.s "No pude identificar el ID de la tarea".data)
      rw [hroute]
      rfl

end MorningBot
